import Mathlib

/-!
Shallow embedding of the PSDocling PyWebView launcher
(`Launch-PyWebView.py`): the readiness probe `check_backend_ready`,
the download bridge `DownloadAPI.download_file`, the port parsing in
`main`, and the wiring order of `main`.  Collaborators (HTTP fetch,
native save dialog, file write) are modelled as explicit behaviour
data; a Python exception raised by a collaborator is modelled as an
`Except.error` flowing through the body of the `try:` block, which the
top-level `except Exception` converts to the absence result `None`.
-/

/-- Outcome of one `requests.get(.../api/health, timeout=2)` attempt in
`check_backend_ready`: either a response with a status code, or a
`requests.exceptions.RequestException` (network error / timeout). -/
inductive AttemptOutcome where
  | ok (status : Nat)
  | exn
  deriving DecidableEq

/-- Line 21 of the source: an attempt counts as success iff `response.status_code == 200`;
a raised request exception (line 24) is never a success. -/
def attempt_succeeds (o : AttemptOutcome) : Bool :=
  match o with
  | AttemptOutcome.ok status => status == 200
  | AttemptOutcome.exn => false

/-- The `for attempt in range(max_attempts)` loop of `check_backend_ready`
(lines 18-26).  `f i` is the outcome of the attempt with 0-based index
`start + i`; the result records (returned boolean, number of attempts
performed, number of `time.sleep(delay)` calls executed).  Note the
`time.sleep(delay)` at line 26 sits inside the loop body after the
`try/except`, so it runs after every failed attempt, including the last. -/
def check_aux (f : Nat → AttemptOutcome) (start : Nat) : Nat → Bool × Nat × Nat
  | 0 => (false, 0, 0)
  | fuel + 1 =>
    if attempt_succeeds (f start) then (true, 1, 0)
    else
      let r := check_aux f (start + 1) fuel
      (r.1, r.2.1 + 1, r.2.2 + 1)

/-- `check_backend_ready(url, max_attempts, delay)` (lines 15-28), with the
HTTP attempts abstracted as the outcome sequence `f`.  Returns the boolean
result together with the count of attempts performed and of sleeps executed. -/
def check_backend_ready (f : Nat → AttemptOutcome) (max_attempts : Nat) :
    Bool × Nat × Nat :=
  check_aux f 0 max_attempts

/-- Model of Python `str.endswith(t)`: the last `len(t)` characters of `s`
equal `t`. -/
def endswith (s t : String) : Bool :=
  s.data.reverse.take t.data.length == t.data.reverse

/-- Line 55 of the source:
`suggested_name = filename if filename.endswith('.zip') else f"{doc_id}.zip"`. -/
def suggested_name (doc_id filename : String) : String :=
  if endswith filename ".zip" then filename else doc_id ++ ".zip"

/-- Shape of the value returned by `window.create_file_dialog`: Python
`None`, a single path string, or a tuple/list of path strings. -/
inductive DialogResult where
  | nothing
  | single (s : String)
  | seq (xs : List String)
  deriving DecidableEq

/-- Python truthiness of a dialog result: `None` is falsy, a string is
truthy iff non-empty, a tuple/list is truthy iff non-empty. -/
def truthy (dr : DialogResult) : Bool :=
  match dr with
  | DialogResult.nothing => false
  | DialogResult.single s => !(s == "")
  | DialogResult.seq xs => !(xs.isEmpty)

/-- Lines 71-76 of the source: the dialog-result normalization.
`if save_path:` then, when it is a tuple or list, replace it by its first
element (`save_path[0] if save_path else None`), then re-check
`if save_path:`.  The result is the resolved destination path, or `None`
for a cancellation. -/
def resolve_save_path (dr : DialogResult) : Option String :=
  if truthy dr then
    let sp : Option String :=
      match dr with
      | DialogResult.seq xs => xs.head?
      | DialogResult.single s => some s
      | DialogResult.nothing => Option.none
    match sp with
    | some p => if !(p == "") then some p else Option.none
    | Option.none => Option.none
  else Option.none

/-- Behaviour of `requests.get(download_url, timeout=60)` at line 50:
a response (status code and body bytes) or a raised exception. -/
inductive FetchOutcome where
  | ok (status : Nat) (content : List Nat)
  | exn (msg : String)

/-- Behaviour of the `create_file_dialog` primitive itself (given the
window reference is live): a returned dialog result or a raised exception. -/
inductive DialogOutcome where
  | ok (dr : DialogResult)
  | exn (msg : String)

/-- Behaviour of `open(save_path, 'wb')` + `f.write(...)` at lines 79-80:
success or a raised `OSError`-like exception. -/
inductive WriteOutcome where
  | ok
  | exn (msg : String)

/-- The collaborators of one `download_file` call: the fetch behaviour,
whether `set_window` has run (`self._window` is not `None`), the dialog
behaviour, and the write behaviour as a function of path and content. -/
structure Collab where
  fetch : FetchOutcome
  windowSet : Bool
  dialog : DialogOutcome
  write : String → List Nat → WriteOutcome

/-- Result of running the body of the `try:` block of `download_file`
(lines 43-89): the `Except.error` case is a Python exception reaching the
top-level handler.  `writes` lists the (path, bytes) files written,
`dialogOpened` records whether the `create_file_dialog` call was reached
with a live window, and `suggested` is the `suggested_name` computed at
line 55 (only in the status-200 branch). -/
structure BodyOut where
  outcome : Except String (Option String)
  writes : List (String × List Nat)
  dialogOpened : Bool
  suggested : Option String

/-- The body of the `try:` block of `DownloadAPI.download_file`
(lines 43-89).  With status 200 the suggested name is computed, then
`self._window.create_file_dialog(...)` is called: if `self._window` is
still `None` this raises an `AttributeError` before any dialog opens.
Otherwise the dialog result is normalized by `resolve_save_path`; a
resolved path is written with the response content and returned, a `None`
resolution returns `None` (line 85).  A non-200 status returns `None`
without touching the dialog (lines 86-89). -/
def download_file_body (doc_id filename : String) (c : Collab) : BodyOut :=
  match c.fetch with
  | FetchOutcome.exn m => ⟨Except.error m, [], false, Option.none⟩
  | FetchOutcome.ok status content =>
    if status == 200 then
      let sug := suggested_name doc_id filename
      if c.windowSet then
        match c.dialog with
        | DialogOutcome.exn m => ⟨Except.error m, [], true, some sug⟩
        | DialogOutcome.ok dr =>
          match resolve_save_path dr with
          | some p =>
            match c.write p content with
            | WriteOutcome.ok => ⟨Except.ok (some p), [(p, content)], true, some sug⟩
            | WriteOutcome.exn m => ⟨Except.error m, [], true, some sug⟩
          | Option.none => ⟨Except.ok Option.none, [], true, some sug⟩
      else
        ⟨Except.error "AttributeError: NoneType object has no attribute create_file_dialog",
          [], false, some sug⟩
    else
      ⟨Except.ok Option.none, [], false, Option.none⟩

/-- The script-visible outcome of one `download_file` call: the returned
value (`result = none` is Python `None`), the files written, whether the
dialog was opened, the suggested filename passed to the dialog, and
whether the top-level `except Exception` handler fired (logging the
exception and traceback, lines 90-94). -/
structure DLOutcome where
  result : Option String
  writes : List (String × List Nat)
  dialogOpened : Bool
  suggested : Option String
  exnCaught : Bool
  deriving DecidableEq

/-- `DownloadAPI.download_file(doc_id, filename)` (lines 40-94): the body
runs inside `try:`; any exception is caught by `except Exception` at line
90 and converted into the return value `None` (line 94), after logging. -/
def download_file (doc_id filename : String) (c : Collab) : DLOutcome :=
  let b := download_file_body doc_id filename c
  match b.outcome with
  | Except.ok r => ⟨r, b.writes, b.dialogOpened, b.suggested, false⟩
  | Except.error _ => ⟨Option.none, b.writes, b.dialogOpened, b.suggested, true⟩

/-- Strip leading and trailing whitespace, as Python `int(str)` does
before parsing. -/
def strip_ws (cs : List Char) : List Char :=
  ((cs.dropWhile Char.isWhitespace).reverse.dropWhile Char.isWhitespace).reverse

/-- Digit-string to number: `some` iff the list is non-empty and all
decimal digits. -/
def digits_to_nat (cs : List Char) : Option Nat :=
  match cs with
  | [] => Option.none
  | _ =>
    if cs.all Char.isDigit then
      some (cs.foldl (fun acc c => acc * 10 + (c.toNat - 48)) 0)
    else Option.none

/-- Model of Python `int(s)` on a string: optional surrounding whitespace,
optional sign, then a non-empty run of decimal digits; anything else
raises `ValueError`, modelled as `Option.none`. -/
def py_int (s : String) : Option Int :=
  match strip_ws s.data with
  | [] => Option.none
  | c :: rest =>
    if c == '-' then (digits_to_nat rest).map (fun n => -(n : Int))
    else if c == '+' then (digits_to_nat rest).map (fun n => (n : Int))
    else (digits_to_nat (c :: rest)).map (fun n => (n : Int))

/-- The port configuration computed by `main` (lines 98-112), together
with the warnings printed for invalid values. -/
structure PortConfig where
  api_port : Int
  web_port : Int
  warnings : List String
  deriving DecidableEq

/-- Lines 98-112 of `main`: `api_port`/`web_port` default to 8080/8081;
when `sys.argv[1]` (resp. `[2]`) is present, `int(...)` is tried and a
`ValueError` falls back to the default with a printed warning.  `argv`
includes the program name at index 0, as `sys.argv` does. -/
def parse_ports (argv : List String) : PortConfig :=
  let api :=
    match argv[1]? with
    | some a =>
      match py_int a with
      | some n => (n, ([] : List String))
      | Option.none => ((8080 : Int), ["Invalid API port: " ++ a ++ ", using default 8080"])
    | Option.none => ((8080 : Int), ([] : List String))
  let web :=
    match argv[2]? with
    | some a =>
      match py_int a with
      | some n => (n, ([] : List String))
      | Option.none => ((8081 : Int), ["Invalid Web port: " ++ a ++ ", using default 8081"])
    | Option.none => ((8081 : Int), ([] : List String))
  ⟨api.1, web.1, api.2 ++ web.2⟩

/-- The externally relevant steps of `main` (lines 119-152), in program
order. -/
inductive MainEvent where
  | checkBackend
  | exitFailure
  | createWindow
  | setWindowRef
  | startEventLoop
  deriving DecidableEq

/-- The straight-line order of `main` (lines 119-152): the readiness gate
runs first; on failure the process exits with status 1 (line 121); on
success the window is created (line 130), then `api.set_window(window)`
runs (line 143), then `webview.start(...)` enters the UI event loop
(line 152).  Script-originated calls can only occur once the event loop
is running. -/
def main_events (backendReady : Bool) : List MainEvent :=
  if backendReady then
    [MainEvent.checkBackend, MainEvent.createWindow,
     MainEvent.setWindowRef, MainEvent.startEventLoop]
  else
    [MainEvent.checkBackend, MainEvent.exitFailure]


theorem check_aux_all_fail (fuel : Nat) : ∀ (start : Nat) (f : Nat → AttemptOutcome),
    (∀ i, i < fuel → attempt_succeeds (f (start + i)) = false) →
    check_aux f start fuel = (false, fuel, fuel) := by
  induction fuel with
  | zero => intro start f _h; rfl
  | succ m ih =>
    intro start f h
    have h0 : attempt_succeeds (f start) = false := by
      have := h 0 (Nat.succ_pos m)
      simpa using this
    have hr := ih (start + 1) f (fun i hi => by
      have e : start + 1 + i = start + (i + 1) := by omega
      rw [e]
      exact h (i + 1) (by omega))
    simp [check_aux, h0, hr]

theorem check_aux_first_success (j : Nat) : ∀ (fuel start : Nat) (f : Nat → AttemptOutcome),
    j < fuel →
    (∀ i, i < j → attempt_succeeds (f (start + i)) = false) →
    attempt_succeeds (f (start + j)) = true →
    check_aux f start fuel = (true, j + 1, j) := by
  induction j with
  | zero =>
    intro fuel start f hj _h hs
    cases fuel with
    | zero => omega
    | succ m =>
      rw [Nat.add_zero] at hs
      simp [check_aux, hs]
  | succ j ih =>
    intro fuel start f hj hfail hs
    cases fuel with
    | zero => omega
    | succ m =>
      have h0 : attempt_succeeds (f start) = false := by
        have := hfail 0 (Nat.succ_pos j)
        simpa using this
      have hr := ih m (start + 1) f (by omega)
        (fun i hi => by
          have e : start + 1 + i = start + (i + 1) := by omega
          rw [e]
          exact hfail (i + 1) (by omega))
        (by
          have e : start + 1 + j = start + (j + 1) := by omega
          rw [e]
          exact hs)
      simp [check_aux, h0, hr]

/-- Claim C3 counterexample: with `maxAttempts = 1` and the single attempt
failing, `check_backend_ready` executes 1 sleep, not `maxAttempts - 1 = 0`
as the claim states — `time.sleep(delay)` at line 26 also runs after the
last failed attempt. -/
theorem check_backend_ready_sleep_count_cex :
    check_backend_ready (fun _ => AttemptOutcome.exn) 1 = (false, 1, 1) ∧
    (check_backend_ready (fun _ => AttemptOutcome.exn) 1).2.2 ≠ 1 - 1 := by
  constructor
  · rfl
  · decide

/-- Claim C3 (amended): for every `maxAttempts` and every health-check
sequence in which all attempts fail, `check_backend_ready` returns false
after performing exactly `maxAttempts` attempts and sleeping exactly
`maxAttempts` times (the sleep also follows the last failed attempt). -/
theorem check_backend_ready_exhaustion (f : Nat → AttemptOutcome) (n : Nat)
    (h : ∀ i, i < n → attempt_succeeds (f i) = false) :
    check_backend_ready f n = (false, n, n) := by
  unfold check_backend_ready
  exact check_aux_all_fail n 0 f (fun i hi => by simpa using h i hi)

theorem check_backend_ready_exhaustion_witness :
    check_backend_ready (fun _ => AttemptOutcome.exn) 2 = (false, 2, 2) :=
  check_backend_ready_exhaustion (fun _ => AttemptOutcome.exn) 2 (fun _ _ => rfl)

/-- Claim C4: for every health-check sequence whose first HTTP-200 response
occurs at attempt `k` (1-based) with `k ≤ maxAttempts`, `check_backend_ready`
returns true after performing exactly `k` attempts and no more (and sleeps
`k - 1` times). -/
theorem check_backend_ready_first_success (f : Nat → AttemptOutcome) (k n : Nat)
    (hk : 1 ≤ k) (hkn : k ≤ n)
    (hfail : ∀ i, i < k - 1 → attempt_succeeds (f i) = false)
    (hs : attempt_succeeds (f (k - 1)) = true) :
    check_backend_ready f n = (true, k, k - 1) := by
  unfold check_backend_ready
  have h := check_aux_first_success (k - 1) n 0 f (by omega)
    (fun i hi => by simpa using hfail i hi)
    (by simpa using hs)
  rw [h]
  have e : k - 1 + 1 = k := by omega
  rw [e]

theorem check_backend_ready_first_success_witness :
    check_backend_ready
      (fun i => if i == 1 then AttemptOutcome.ok 200 else AttemptOutcome.exn) 5 =
      (true, 2, 1) :=
  check_backend_ready_first_success
    (fun i => if i == 1 then AttemptOutcome.ok 200 else AttemptOutcome.exn) 2 5
    (by decide) (by decide)
    (fun i hi => by
      have : i = 0 := by omega
      subst this
      rfl)
    rfl

/-- Claim C1 counterexample: with `doc_id = "doc-42"` and
`filename = "report"` (no `.zip`), line 55 produces `"doc-42.zip"` — the
extension is appended to the document id, not to the filename as the
claim states. -/
theorem suggested_name_not_filename_based :
    suggested_name "doc-42" "report" = "doc-42.zip" ∧
    suggested_name "doc-42" "report" ≠ "report.zip" := by
  constructor
  · decide
  · decide

theorem download_file_suggested_eq_body (d f : String) (c : Collab) :
    (download_file d f c).suggested = (download_file_body d f c).suggested := by
  unfold download_file
  cases h : (download_file_body d f c).outcome <;> simp [h]

theorem download_file_body_suggested_200 (d f : String) (c : Collab) (content : List Nat)
    (hf : c.fetch = FetchOutcome.ok 200 content) :
    (download_file_body d f c).suggested = some (suggested_name d f) := by
  obtain ⟨fet, ws, dlg, wr⟩ := c
  simp only at hf
  subst hf
  cases ws with
  | false => rfl
  | true =>
    cases dlg with
    | exn m => rfl
    | ok dr =>
      cases hres : resolve_save_path dr with
      | none => simp [download_file_body, hres]
      | some p =>
        cases hwr : wr p content with
        | ok => simp [download_file_body, hres, hwr]
        | exn m => simp [download_file_body, hres, hwr]

/-- Claim C1 (amended): in the status-200 branch of `download_file`, when
`filename` already ends in `.zip` the suggested dialog filename is that
filename verbatim; otherwise it is the document id with `.zip` appended
(not the filename with `.zip` appended). -/
theorem suggested_name_spec (d f : String) (c : Collab) (content : List Nat)
    (hf : c.fetch = FetchOutcome.ok 200 content) :
    (endswith f ".zip" = true → (download_file d f c).suggested = some f) ∧
    (endswith f ".zip" = false → (download_file d f c).suggested = some (d ++ ".zip")) := by
  have h1 := download_file_suggested_eq_body d f c
  have h2 := download_file_body_suggested_200 d f c content hf
  constructor
  · intro he
    rw [h1, h2]
    unfold suggested_name
    rw [he]
    simp
  · intro he
    rw [h1, h2]
    unfold suggested_name
    rw [he]
    simp

theorem suggested_name_spec_witness :
    (download_file "doc-42" "report"
      ⟨FetchOutcome.ok 200 [1], true, DialogOutcome.ok DialogResult.nothing,
        fun _ _ => WriteOutcome.ok⟩).suggested = some ("doc-42" ++ ".zip") :=
  (suggested_name_spec "doc-42" "report"
    ⟨FetchOutcome.ok 200 [1], true, DialogOutcome.ok DialogResult.nothing,
      fun _ _ => WriteOutcome.ok⟩ [1] rfl).2 (by decide)

theorem resolve_seq_head (p : String) (rest : List String) :
    resolve_save_path (DialogResult.seq (p :: rest)) =
      resolve_save_path (DialogResult.single p) := by
  cases hb : (p == "") <;> simp [resolve_save_path, truthy, hb]

/-- Claim C2: a dialog result that is a non-empty sequence is resolved to
its first element — the whole call behaves exactly as if the dialog had
returned that single first element — while an empty sequence, a `None`
result, or an empty-string result makes `download_file` return the
absence result with no file written and no exception crossing the
boundary (`exnCaught = false`). -/
theorem download_file_dialog_normalization (d f : String) (content : List Nat)
    (wr : String → List Nat → WriteOutcome) (p : String) (rest : List String) :
    download_file d f ⟨FetchOutcome.ok 200 content, true,
        DialogOutcome.ok (DialogResult.seq (p :: rest)), wr⟩ =
      download_file d f ⟨FetchOutcome.ok 200 content, true,
        DialogOutcome.ok (DialogResult.single p), wr⟩ ∧
    download_file d f ⟨FetchOutcome.ok 200 content, true,
        DialogOutcome.ok (DialogResult.seq []), wr⟩ =
      ⟨Option.none, [], true, some (suggested_name d f), false⟩ ∧
    download_file d f ⟨FetchOutcome.ok 200 content, true,
        DialogOutcome.ok DialogResult.nothing, wr⟩ =
      ⟨Option.none, [], true, some (suggested_name d f), false⟩ ∧
    download_file d f ⟨FetchOutcome.ok 200 content, true,
        DialogOutcome.ok (DialogResult.single ""), wr⟩ =
      ⟨Option.none, [], true, some (suggested_name d f), false⟩ := by
  refine ⟨?_, rfl, rfl, rfl⟩
  have h := resolve_seq_head p rest
  cases hres : resolve_save_path (DialogResult.single p) with
  | none =>
    rw [hres] at h
    simp [download_file, download_file_body, h, hres]
  | some q =>
    rw [hres] at h
    cases hwr : wr q content with
    | ok => simp [download_file, download_file_body, h, hres, hwr]
    | exn m => simp [download_file, download_file_body, h, hres, hwr]

/-- Claim C10: a dialog result that is a non-empty sequence whose first
element is falsy (the empty string) is treated as a cancellation:
`download_file` returns the absence result and writes no file. -/
theorem download_file_falsy_first_element (d f : String) (content : List Nat)
    (wr : String → List Nat → WriteOutcome) (rest : List String) :
    download_file d f ⟨FetchOutcome.ok 200 content, true,
        DialogOutcome.ok (DialogResult.seq ("" :: rest)), wr⟩ =
      ⟨Option.none, [], true, some (suggested_name d f), false⟩ := rfl

/-- Claim C5: whenever the body of the `try:` block raises (any collaborator
exception — fetch, dialog, missing window, file write), the top-level
handler converts it into the absence result: `download_file` returns
`None` and the handler (which logs) fired; no exception reaches the
caller. -/
theorem download_file_no_exception_propagation (d f : String) (c : Collab) (e : String)
    (h : (download_file_body d f c).outcome = Except.error e) :
    (download_file d f c).result = Option.none ∧
      (download_file d f c).exnCaught = true := by
  simp [download_file, h]

theorem download_file_no_exception_propagation_witness :
    (download_file "doc-1" "report"
        ⟨FetchOutcome.exn "connection refused", true,
          DialogOutcome.ok DialogResult.nothing, fun _ _ => WriteOutcome.ok⟩).result =
      Option.none ∧
    (download_file "doc-1" "report"
        ⟨FetchOutcome.exn "connection refused", true,
          DialogOutcome.ok DialogResult.nothing, fun _ _ => WriteOutcome.ok⟩).exnCaught =
      true :=
  download_file_no_exception_propagation "doc-1" "report"
    ⟨FetchOutcome.exn "connection refused", true,
      DialogOutcome.ok DialogResult.nothing, fun _ _ => WriteOutcome.ok⟩
    "connection refused" rfl

/-- Claim C6: a fetch response with a non-200 status makes `download_file`
abort before the save dialog (`dialogOpened = false`), return the absence
result, and write no file; no exception is involved. -/
theorem download_file_non_200_aborts (d f : String) (c : Collab) (status : Nat)
    (content : List Nat) (hf : c.fetch = FetchOutcome.ok status content)
    (hs : status ≠ 200) :
    download_file d f c = ⟨Option.none, [], false, Option.none, false⟩ := by
  have hb : (status == 200) = false := by simpa using hs
  obtain ⟨fet, ws, dlg, wr⟩ := c
  simp only at hf
  subst hf
  simp [download_file, download_file_body, hb]

theorem download_file_non_200_aborts_witness :
    download_file "doc-1" "report.zip"
        ⟨FetchOutcome.ok 404 [], true, DialogOutcome.ok DialogResult.nothing,
          fun _ _ => WriteOutcome.ok⟩ =
      ⟨Option.none, [], false, Option.none, false⟩ :=
  download_file_non_200_aborts "doc-1" "report.zip"
    ⟨FetchOutcome.ok 404 [], true, DialogOutcome.ok DialogResult.nothing,
      fun _ _ => WriteOutcome.ok⟩ 404 [] rfl (by decide)

/-- Claim C7 counterexample: invoking `download_file` before `set_window`
has run (window reference still `None`), with a 200 fetch, does not fail
loudly: the `AttributeError` raised by `self._window.create_file_dialog`
is swallowed by the top-level `except Exception`, and the call returns the
ordinary absence result `None` (`result = Option.none`), exactly as a user
cancellation would — `exnCaught = true` records that the handler, not the
caller, saw the exception. -/
theorem download_file_window_unset_cex :
    (download_file "doc-1" "report"
        ⟨FetchOutcome.ok 200 [7], false,
          DialogOutcome.ok (DialogResult.single "/tmp/a.zip"),
          fun _ _ => WriteOutcome.ok⟩).result = Option.none ∧
    (download_file "doc-1" "report"
        ⟨FetchOutcome.ok 200 [7], false,
          DialogOutcome.ok (DialogResult.single "/tmp/a.zip"),
          fun _ _ => WriteOutcome.ok⟩).exnCaught = true := ⟨rfl, rfl⟩

/-- Claim C7 (amended): if `download_file` is invoked before the window
reference has been set, the attribute access on the `None` window raises
an `AttributeError` inside the `try:` block, the top-level handler catches
it, and the call returns the ordinary absence result `None` with a log
line — it does not fail loudly, the dialog never opens, and no file is
written. -/
theorem download_file_window_unset_swallowed (d f : String) (content : List Nat)
    (dlg : DialogOutcome) (wr : String → List Nat → WriteOutcome) :
    download_file d f ⟨FetchOutcome.ok 200 content, false, dlg, wr⟩ =
      ⟨Option.none, [], false, some (suggested_name d f), true⟩ ∧
    (download_file_body d f ⟨FetchOutcome.ok 200 content, false, dlg, wr⟩).outcome =
      Except.error "AttributeError: NoneType object has no attribute create_file_dialog" :=
  ⟨rfl, rfl⟩

/-- Claim C8: in `main`, when the readiness gate succeeds, the window
reference is written onto the bridge exactly once, strictly after window
creation and strictly before the UI event loop starts (so a
script-originated call, only possible once the loop runs, sees a live
window); when the gate fails, the event loop never starts and the
reference is never written. -/
theorem main_wiring_order :
    (main_events true).count MainEvent.setWindowRef = 1 ∧
    (main_events true).indexOf MainEvent.createWindow <
      (main_events true).indexOf MainEvent.setWindowRef ∧
    (main_events true).indexOf MainEvent.setWindowRef <
      (main_events true).indexOf MainEvent.startEventLoop ∧
    (main_events false).count MainEvent.setWindowRef = 0 ∧
    MainEvent.startEventLoop ∉ main_events false := by
  decide

/-- Claim C9: the two optional positional arguments default to 8080 and
8081; a present argument that parses as an integer is used; a present
argument that does not parse falls back to the default and appends a
warning (no fatal error: `parse_ports` is total and always yields a
configuration). -/
theorem main_port_parsing (argv : List String) :
    ((argv[1]?).isNone → (parse_ports argv).api_port = 8080) ∧
    ((argv[2]?).isNone → (parse_ports argv).web_port = 8081) ∧
    (∀ a, argv[1]? = some a → py_int a = Option.none →
      (parse_ports argv).api_port = 8080 ∧
      ("Invalid API port: " ++ a ++ ", using default 8080") ∈ (parse_ports argv).warnings) ∧
    (∀ a, argv[2]? = some a → py_int a = Option.none →
      (parse_ports argv).web_port = 8081 ∧
      ("Invalid Web port: " ++ a ++ ", using default 8081") ∈ (parse_ports argv).warnings) ∧
    (∀ a n, argv[1]? = some a → py_int a = some n → (parse_ports argv).api_port = n) ∧
    (∀ a n, argv[2]? = some a → py_int a = some n → (parse_ports argv).web_port = n) := by
  refine ⟨?_, ?_, ?_, ?_, ?_, ?_⟩
  · intro h
    rw [Option.isNone_iff_eq_none] at h
    simp [parse_ports, h]
  · intro h
    rw [Option.isNone_iff_eq_none] at h
    simp [parse_ports, h]
  · intro a ha hp
    constructor
    · simp [parse_ports, ha, hp]
    · simp [parse_ports, ha, hp]
  · intro a ha hp
    constructor
    · simp [parse_ports, ha, hp]
    · simp [parse_ports, ha, hp]
  · intro a n ha hp
    simp [parse_ports, ha, hp]
  · intro a n ha hp
    simp [parse_ports, ha, hp]

theorem main_port_parsing_witness :
    (parse_ports ["launcher", "abc", "80x"]).api_port = 8080 ∧
    ("Invalid API port: " ++ "abc" ++ ", using default 8080") ∈
      (parse_ports ["launcher", "abc", "80x"]).warnings :=
  (main_port_parsing ["launcher", "abc", "80x"]).2.2.1 "abc" rfl (by decide)
